import Mathlib

/-!
# Verification of the task-manager intent-resolution and tool-orchestration engine

Shallow embedding of the core of the `task-manager` repository:

* `src/lib/tasks-server.ts` — server-side task operations
  (`addTaskServer`, `toggleTaskServer`, `deleteTaskServer`) and the
  pattern-matching mock agent `mockClaudeResponse` (the Intent Resolver),
  including its helpers `extractTitle` (a hand-compiled, backtracking-faithful
  model of the two JavaScript regexes) and `findTask`;
* `src/app/api/claude/agent/route.ts` — the per-invocation Tool Executor and
  the orchestration loop that threads the task collection through a batch of
  tool calls;
* the bulk-clear ("clear completed") branch of the final mock agent module
  (`lib/claude/mockAgent.ts`), which is imported by the agent route but whose
  final source is not present; it is modelled from the spec (rule 1 of the
  Resolver algorithm) where marked.

JavaScript strings are modelled as Lean `String` / `List Char`; `Date.now()`
is an explicit `now : Nat` parameter; the task collection is passed by value
(the source's in-place mutation of a found task is modelled as rebuilding the
list with the single element replaced, which is what the callers observe).
-/

namespace TaskMgr

/-- Task record, from `src/lib/tasks-server.ts` (`interface Task`). -/
structure Task where
  id : String
  title : String
  completed : Bool
  createdAt : Nat
deriving Repr, DecidableEq

/- ## String helpers

JavaScript's `String.prototype.includes`, `toLowerCase`, `trim` modelled over
`List Char`.  `Char.toLower` in Lean lowercases ASCII letters, which covers
every keyword and every input evaluated here. -/

/-- `pat` is a prefix of `s` (over characters). -/
def listStartsWith : List Char → List Char → Bool
  | [], _ => true
  | _ :: _, [] => false
  | p :: ps, c :: cs => p = c && listStartsWith ps cs

/-- `pat` occurs as a contiguous substring of `s` — JavaScript
`s.includes(pat)`. -/
def listContains (pat : List Char) : List Char → Bool
  | [] => listStartsWith pat []
  | s@(_ :: rest) => listStartsWith pat s || listContains pat rest

/-- `message.includes(pat)` for a message already held as characters. -/
def containsTok (m : List Char) (pat : String) : Bool :=
  listContains pat.data m

/-- JavaScript `trim`: strip whitespace from both ends. -/
def trimChars (cs : List Char) : List Char :=
  ((cs.dropWhile Char.isWhitespace).reverse.dropWhile Char.isWhitespace).reverse

/-- `userMessage.toLowerCase().trim()` from `mockClaudeResponse`. -/
def lowerTrim (s : String) : List Char :=
  trimChars (s.data.map Char.toLower)

/- ## extractTitle

Faithful model of the helper in `mockClaudeResponse`
(`src/lib/tasks-server.ts`):

```js
const patterns = [
  /(?:add|create)\s+(?:a\s+)?(?:task\s+)?['"]?([^'"\n]+?)['"]?(?:\s|$|\.)/i,
  /['"]([^'"\n]+?)['"](?:\s|$)/i
];
for (const pattern of patterns) {
  const match = msg.match(pattern);
  if (match && match[1]) return match[1].trim();
}
return null;
```

The two regexes are hand-compiled into backtracking matchers with JavaScript
semantics: leftmost starting position wins; greedy `?` tries to consume
first; the lazy group `+?` grows one character at a time and stops at the
first position where the remainder of the pattern matches.  The capture
group is non-empty whenever a pattern matches, so `match[1]` is always
truthy on success and the trimmed group is returned. -/

/-- The character class `['"]` (apostrophe or double quote). -/
def isQuoteCh (c : Char) : Bool := c = Char.ofNat 39 || c = '"'

/-- The group class `[^'"\n]`. -/
def isGroupCh (c : Char) : Bool := !isQuoteCh c && c ≠ '\n'

/-- Terminator `(?:\s|$|\.)` of pattern 1, for a non-end position. -/
def isTermCh (c : Char) : Bool := c.isWhitespace || c = '.'

/-- After the lazy group of pattern 1, does `['"]?(?:\s|$|\.)` match here?
Greedy `['"]?` tries the quote first, then empty; the disjunction is
order-insensitive for success. -/
def p1Closes : List Char → Bool
  | [] => true
  | c :: rest =>
    isTermCh c ||
      (isQuoteCh c && (match rest with
        | [] => true
        | d :: _ => isTermCh d))

/-- Lazy scan of `([^'"\n]+?)` followed by `['"]?(?:\s|$|\.)`:
grow the group one character at a time and stop at the first length at
which the closing part matches.  Returns the raw (untrimmed) group. -/
def p1Group (acc : List Char) : List Char → Option (List Char)
  | [] => none
  | c :: rest =>
    if isGroupCh c then
      let acc' := acc ++ [c]
      if p1Closes rest then some acc' else p1Group acc' rest
    else none

/-- `['"]?` before the group of pattern 1: greedy, so a leading quote is
consumed first; if the rest fails with the quote consumed, retry without. -/
def p1OptQuote (s : List Char) : Option (List Char) :=
  match s with
  | c :: rest =>
    if isQuoteCh c then
      match p1Group [] rest with
      | some g => some g
      | none => p1Group [] s
    else p1Group [] s
  | [] => p1Group [] s

/-- Try `f` on `s.drop k`, `s.drop (k-1)`, …, `s.drop 1` in that order:
the backtracking of a greedy `\s+` that consumed up to `k` characters. -/
def tryDrops (f : List Char → Option (List Char)) (s : List Char) :
    Nat → Option (List Char)
  | 0 => none
  | k + 1 =>
    match f (s.drop (k + 1)) with
    | some g => some g
    | none => tryDrops f s k

/-- Number of leading whitespace characters. -/
def wsCount (s : List Char) : Nat := (s.takeWhile Char.isWhitespace).length

/-- `(?:task\s+)?` then the optional quote and the group (case-insensitive,
greedy with backtracking into the skip alternative). -/
def p1OptTask (s : List Char) : Option (List Char) :=
  let attempt :=
    match s with
    | t :: a :: sk :: k :: rest =>
      if t.toLower = 't' && a.toLower = 'a' && sk.toLower = 's' && k.toLower = 'k' then
        let m := wsCount rest
        if m = 0 then none else tryDrops p1OptQuote rest m
      else none
    | _ => none
  match attempt with
  | some g => some g
  | none => p1OptQuote s

/-- `(?:a\s+)?` then the rest of pattern 1 (greedy with backtracking). -/
def p1OptA (s : List Char) : Option (List Char) :=
  let attempt :=
    match s with
    | a :: rest =>
      if a.toLower = 'a' then
        let m := wsCount rest
        if m = 0 then none else tryDrops p1OptTask rest m
      else none
    | [] => none
  match attempt with
  | some g => some g
  | none => p1OptTask s

/-- After the verb: `\s+` (greedy, with backtracking) then the rest. -/
def p1AfterVerb (s : List Char) : Option (List Char) :=
  let m := wsCount s
  if m = 0 then none else tryDrops p1OptA s m

/-- Case-insensitive literal prefix test. -/
def ciStartsWith (pat : String) (s : List Char) : Bool :=
  listStartsWith pat.data (s.map Char.toLower)

/-- Attempt pattern 1 starting exactly at `s`: `(?:add|create)` then the
rest.  The two alternatives start with different letters, so no
backtracking interplay arises between them. -/
def p1At (s : List Char) : Option (List Char) :=
  if ciStartsWith "add" s then p1AfterVerb (s.drop 3)
  else if ciStartsWith "create" s then p1AfterVerb (s.drop 6)
  else none

/-- Leftmost match of pattern 1: try each start position left to right. -/
def p1Scan : List Char → Option (List Char)
  | [] => none
  | s@(_ :: rest) =>
    match p1At s with
    | some g => some g
    | none => p1Scan rest

/-- After the lazy group of pattern 2, does `['"](?:\s|$)` match here? -/
def p2Closes : List Char → Bool
  | [] => false
  | c :: rest =>
    isQuoteCh c && (match rest with
      | [] => true
      | d :: _ => d.isWhitespace)

/-- Lazy group of pattern 2 followed by its mandatory closing quote. -/
def p2Group (acc : List Char) : List Char → Option (List Char)
  | [] => none
  | c :: rest =>
    if isGroupCh c then
      let acc' := acc ++ [c]
      if p2Closes rest then some acc' else p2Group acc' rest
    else none

/-- Attempt pattern 2 starting exactly at `s`: `['"]` then group. -/
def p2At (s : List Char) : Option (List Char) :=
  match s with
  | c :: rest => if isQuoteCh c then p2Group [] rest else none
  | [] => none

/-- Leftmost match of pattern 2. -/
def p2Scan : List Char → Option (List Char)
  | [] => none
  | s@(_ :: rest) =>
    match p2At s with
    | some g => some g
    | none => p2Scan rest

/-- `extractTitle` from `mockClaudeResponse`: pattern 1 first, then
pattern 2; on a match the trimmed capture group is returned (the raw group
is non-empty, hence truthy, whenever a pattern matches).  `none` models the
JavaScript `null`. -/
def extractTitle (msg : String) : Option String :=
  match p1Scan msg.data with
  | some g => some (String.mk (trimChars g))
  | none =>
    match p2Scan msg.data with
    | some g => some (String.mk (trimChars g))
    | none => none

/- ## The Resolver: `mockClaudeResponse`

From the mock agent in `src/lib/tasks-server.ts` (the packed source's
`mockClaudeResponse`), parameterized by the task collection the way the
agent route (`src/app/api/claude/agent/route.ts`) supplies it:
`mockClaudeResponse(message, clientTasks || [])`.  Each intent block of the
source returns early; the chain below reproduces that priority order. -/

/-- A resolved tool invocation: `{ name, input }` where the input carries a
`title` and/or a `task_id` field, as read by the executor. -/
structure ToolCall where
  name : String
  title : Option String := none
  task_id : Option String := none
deriving Repr, DecidableEq

/-- Shorthand for an `add_task` invocation. -/
def addCall (t : String) : ToolCall := { name := "add_task", title := some t }

/-- Shorthand for a `complete_task` invocation. -/
def completeCall (i : String) : ToolCall := { name := "complete_task", task_id := some i }

/-- Shorthand for a `delete_task` invocation. -/
def deleteCall (i : String) : ToolCall := { name := "delete_task", task_id := some i }

/-- `AgentResult` from the mock agent: reply text plus tool calls. -/
structure AgentResult where
  response : String
  toolCalls : List ToolCall
deriving Repr, DecidableEq

/-- `findTask` helper of `mockClaudeResponse`: resolve a reference to a
task by index keyword or case-insensitive substring match on titles;
JavaScript `undefined` is modelled as `none`. -/
def findTask (tasks : List Task) (reference : String) : Option Task :=
  let ref := reference.data.map Char.toLower
  if listContains "first".data ref then tasks.head?
  else if listContains "last".data ref then tasks.getLast?
  else tasks.find? (fun t => listContains ref (t.title.data.map Char.toLower))

/-- Keyword test for the bulk-clear verb (spec rule 1):
"clear", "delete all" or "remove all". -/
def clearVerb (m : List Char) : Bool :=
  containsTok m "clear" || containsTok m "delete all" || containsTok m "remove all"

/-- Keyword test for the bulk-clear completion qualifier (spec rule 1):
"completed" or "done". -/
def completionQual (m : List Char) : Bool :=
  containsTok m "completed" || containsTok m "done"

/-- Add-intent keyword test: `message.includes('add') || message.includes('create')`. -/
def addIntent (m : List Char) : Bool :=
  containsTok m "add" || containsTok m "create"

/-- Complete-intent keyword test from the source:
`'complete' || 'done' || 'finish' || 'mark' || '✓'`. -/
def completeIntent (m : List Char) : Bool :=
  containsTok m "complete" || containsTok m "done" || containsTok m "finish" ||
    containsTok m "mark" || containsTok m "✓"

/-- Delete-intent keyword test: `'delete' || 'remove'`. -/
def deleteIntent (m : List Char) : Bool :=
  containsTok m "delete" || containsTok m "remove"

/-- List-intent keyword test:
`'show' || 'list' || 'what' || 'how many' || 'view' || 'display'`. -/
def listIntent (m : List Char) : Bool :=
  containsTok m "show" || containsTok m "list" || containsTok m "what" ||
    containsTok m "how many" || containsTok m "view" || containsTok m "display"

/-- Reply of the bulk-clear rule when `k` completed tasks are cleared and
`m` tasks remain, with the pre-execution counts (spec §8 scenario B:
"Cleared 1 completed task. You have 1 task remaining."). -/
def clearedReply (k m : Nat) : String :=
  "Cleared " ++ toString k ++ " completed task" ++ (if k = 1 then "" else "s") ++
    ". You have " ++ toString m ++ " task" ++ (if m = 1 then "" else "s") ++ " remaining."

/-- Modelled from the spec: the bulk-clear branch of the final mock agent
module (`lib/claude/mockAgent.ts`), which the agent route imports but whose
final source is not under `src/` (only the plan
`src/plans/test-clear-completed-tasks.md` documents it).  Spec rule 1: a
clearing verb plus a completion qualifier yields one delete invocation per
currently-completed task in collection order, with the reply built from the
pre-execution counts; zero completed tasks yield a "no completed tasks to
clear" reply; a clearing verb without a qualifier yields a clarifying
question.  Zero invocations in both non-clearing cases. -/
def clearBranch (m : List Char) (tasks : List Task) : AgentResult :=
  if completionQual m then
    let completedTasks := tasks.filter (fun t => t.completed)
    if completedTasks.length = 0 then
      { response := "No completed tasks to clear.", toolCalls := [] }
    else
      { response := clearedReply completedTasks.length (tasks.length - completedTasks.length),
        toolCalls := completedTasks.map (fun t => deleteCall t.id) }
  else
    { response := "What would you like to clear?", toolCalls := [] }

/-- The add-intent branch of `mockClaudeResponse`.  `extractTitle` runs on
the original (un-lowercased) user message; a `null` or empty extracted
title asks for a title instead of invoking `add`. -/
def addBranch (userMessage : String) : AgentResult :=
  match extractTitle userMessage with
  | some title =>
    if title = "" then
      { response := "I\x27d like to add a task, but I need a title. What should the task be called?",
        toolCalls := [] }
    else
      { response := "✓ I\x27ve added \"" ++ title ++ "\" to your tasks.",
        toolCalls := [addCall title] }
  | none =>
    { response := "I\x27d like to add a task, but I need a title. What should the task be called?",
      toolCalls := [] }

/-- Target resolution shared by the complete and delete branches:
"first" keyword, then "last", then extracted-title substring lookup;
`none` when no target resolves (the caller then defaults to the first
task). -/
def resolveTarget (userMessage : String) (m : List Char) (tasks : List Task) : Option Task :=
  if containsTok m "first" then tasks.head?
  else if containsTok m "last" then tasks.getLast?
  else
    match extractTitle userMessage with
    | some title => if title = "" then none else findTask tasks title
    | none => none

/-- The complete-intent branch of `mockClaudeResponse`: empty-collection
guard, target resolution, default to the first task, one
`complete_task` invocation. -/
def completeBranch (userMessage : String) (m : List Char) (tasks : List Task) : AgentResult :=
  match tasks with
  | [] => { response := "You don\x27t have any tasks to complete!", toolCalls := [] }
  | t0 :: _ =>
    let chosen := (resolveTarget userMessage m tasks).getD t0
    { response := "✓ Marked \"" ++ chosen.title ++ "\" as complete.",
      toolCalls := [completeCall chosen.id] }

/-- The delete-intent branch of `mockClaudeResponse`: empty-collection
guard, target resolution, default to the first task, one
`delete_task` invocation. -/
def deleteBranch (userMessage : String) (m : List Char) (tasks : List Task) : AgentResult :=
  match tasks with
  | [] => { response := "You don\x27t have any tasks to delete!", toolCalls := [] }
  | t0 :: _ =>
    let chosen := (resolveTarget userMessage m tasks).getD t0
    { response := String.singleton (Char.ofNat 0x1F5D1) ++ " Deleted \"" ++ chosen.title ++ "\".",
      toolCalls := [deleteCall chosen.id] }

/-- The list-intent branch of `mockClaudeResponse`: enumerate every task
with a done/pending marker and the pending/completed/total counts; zero
invocations. -/
def listBranch (tasks : List Task) : AgentResult :=
  match tasks with
  | [] => { response := "You have no tasks yet. Would you like me to add some?", toolCalls := [] }
  | _ =>
    let completed := (tasks.filter (fun t => t.completed)).length
    let pending := tasks.length - completed
    let taskList := String.intercalate "\n"
      (tasks.map (fun t => (if t.completed then "✓" else "○") ++ " " ++ t.title))
    { response := "You have **" ++ toString tasks.length ++ " tasks** (" ++ toString pending ++
        " pending, " ++ toString completed ++ " done):\n\n" ++ taskList,
      toolCalls := [] }

/-- The fallback usage hint of `mockClaudeResponse`. -/
def fallbackResult : AgentResult :=
  { response := "I can help you manage tasks! Try asking me to:\n" ++
      "- Add a task (e.g., \x27Add Buy milk\x27)\n" ++
      "- Complete a task (e.g., \x27Mark the first task done\x27)\n" ++
      "- Delete a task (e.g., \x27Delete that\x27)\n" ++
      "- Show my tasks (e.g., \x27What tasks do I have?\x27)",
    toolCalls := [] }

/-- The Intent Resolver, `mockClaudeResponse(userMessage, tasks)`: lowercase
and trim the message, then run the first matching intent rule.  The
bulk-clear rule (`clearBranch`, modelled from the spec) is tried first, as
spec rule 1 requires; the remaining rules are the source's intent blocks in
source order (add, complete, delete, list, fallback). -/
def mockClaudeResponse (userMessage : String) (tasks : List Task) : AgentResult :=
  let m := lowerTrim userMessage
  if clearVerb m then clearBranch m tasks
  else if addIntent m then addBranch userMessage
  else if completeIntent m then completeBranch userMessage m tasks
  else if deleteIntent m then deleteBranch userMessage m tasks
  else if listIntent m then listBranch tasks
  else fallbackResult

/- ## Server-side task operations (`src/lib/tasks-server.ts`) -/

/-- `addTaskServer(tasks, title)`: build a task with identifier
`task-${Date.now()}`, `completed: false`, `createdAt: Date.now()`, and
prepend it.  The millisecond clock reading is the explicit `now`
parameter. -/
def addTaskServer (now : Nat) (tasks : List Task) (title : String) : Task × List Task :=
  let task : Task := { id := "task-" ++ toString now, title := title,
                       completed := false, createdAt := now }
  (task, task :: tasks)

/-- `toggleTaskServer(tasks, taskId)`: `tasks.find(...)` locates the first
task with the identifier and flips its `completed` in place; the list (and
its order) is otherwise untouched.  No match leaves the list unchanged. -/
def toggleTaskServer (tasks : List Task) (taskId : String) : List Task :=
  match tasks with
  | [] => []
  | t :: ts =>
    if t.id = taskId then { t with completed := !t.completed } :: ts
    else t :: toggleTaskServer ts taskId

/-- `deleteTaskServer(tasks, taskId)`: `tasks.filter(t => t.id !== taskId)`. -/
def deleteTaskServer (tasks : List Task) (taskId : String) : List Task :=
  tasks.filter (fun t => t.id ≠ taskId)

/- ## The Tool Executor (`src/app/api/claude/agent/route.ts`)

The agent route's `switch (toolCall.name)` executes one invocation against
the threaded `updatedTasks`, producing a per-call result; the loop over
`toolCalls` threads the collection and collects one result per invocation
in order.  A falsy (`undefined` or empty) required field is rejected before
lookup; an identifier absent from the collection produces a not-found
failure and leaves the collection unchanged. -/

/-- The `data` payload of a successful tool result: the affected task
(add, complete) or the `{ title, id }` deletion confirmation. -/
inductive ResultData where
  | taskData (t : Task)
  | deletedData (title id : String)
deriving Repr, DecidableEq

/-- One per-invocation result, as pushed onto `toolResults`. -/
structure ToolResult where
  toolName : String
  success : Bool
  data : Option ResultData := none
  error : Option String := none
deriving Repr, DecidableEq

/-- A failed result with the given error message. -/
def failResult (name msg : String) : ToolResult :=
  { toolName := name, success := false, error := some msg }

/-- The not-found error message of the agent route:
`Task with ID '${taskId}' not found`. -/
def notFoundMsg (taskId : String) : String :=
  "Task with ID \x27" ++ taskId ++ "\x27 not found"

/-- Execute one invocation against the current collection — one arm of the
agent route's `switch`.  Returns the new collection and the result pushed
for this call. -/
def executeToolCall (now : Nat) (tc : ToolCall) (tasks : List Task) :
    List Task × ToolResult :=
  if tc.name = "add_task" then
    match tc.title with
    | none => (tasks, failResult tc.name "Title is required")
    | some title =>
      if title = "" then (tasks, failResult tc.name "Title is required")
      else
        let (task, _) := addTaskServer now tasks title
        (task :: tasks,
         { toolName := tc.name, success := true, data := some (ResultData.taskData task) })
  else if tc.name = "complete_task" then
    match tc.task_id with
    | none => (tasks, failResult tc.name "Task ID is required")
    | some taskId =>
      if taskId = "" then (tasks, failResult tc.name "Task ID is required")
      else
        match tasks.find? (fun t => t.id = taskId) with
        | none => (tasks, failResult tc.name (notFoundMsg taskId))
        | some _ =>
          let updated := toggleTaskServer tasks taskId
          (updated,
           { toolName := tc.name, success := true,
             data := (updated.find? (fun t => t.id = taskId)).map ResultData.taskData })
  else if tc.name = "delete_task" then
    match tc.task_id with
    | none => (tasks, failResult tc.name "Task ID is required")
    | some taskId =>
      if taskId = "" then (tasks, failResult tc.name "Task ID is required")
      else
        match tasks.find? (fun t => t.id = taskId) with
        | none => (tasks, failResult tc.name (notFoundMsg taskId))
        | some task =>
          (deleteTaskServer tasks taskId,
           { toolName := tc.name, success := true,
             data := some (ResultData.deletedData task.title task.id) })
  else (tasks, failResult tc.name ("Unknown tool: " ++ tc.name))

/-- The orchestration loop: apply each invocation in order, threading the
collection (invocation *i+1* sees the collection as mutated by invocation
*i*), and collect one result per invocation in invocation order.  A failed
invocation does not halt the batch. -/
def executeAll (now : Nat) (calls : List ToolCall) (tasks : List Task) :
    List Task × List ToolResult :=
  match calls with
  | [] => (tasks, [])
  | c :: cs =>
    let p := executeToolCall now c tasks
    let q := executeAll now cs p.1
    (q.1, p.2 :: q.2)

/- ## Shared concrete fixtures and helper lemmas -/

/-- Pending demo task (spec §8 scenarios A/B, `t1`). -/
def demoPending : Task := { id := "t1", title := "Buy milk", completed := false, createdAt := 1 }

/-- Completed demo task (spec §8 scenarios A/B, `t2`). -/
def demoDone : Task := { id := "t2", title := "Walk dog", completed := true, createdAt := 2 }

/-- Toggling twice restores the collection: flipping `completed` is an
involution and `toggleTaskServer` touches only the first matching task. -/
theorem toggleTaskServer_involutive (ts : List Task) (i : String) :
    toggleTaskServer (toggleTaskServer ts i) i = ts := by
  induction ts with
  | nil => rfl
  | cons t ts ih =>
    cases t with
    | mk id title comp cr =>
      by_cases h : id = i
      · simp [toggleTaskServer, h]
      · simp [toggleTaskServer, h, ih]

/-- `find?` on a toggled collection: the first task carrying the toggled
identifier is the original first carrier with `completed` flipped. -/
theorem toggleTaskServer_find (ts : List Task) (i : String) :
    (toggleTaskServer ts i).find? (fun t => t.id = i) =
      (ts.find? (fun t => t.id = i)).map (fun t => { t with completed := !t.completed }) := by
  induction ts with
  | nil => rfl
  | cons t ts ih =>
    by_cases h : t.id = i
    · simp [toggleTaskServer, h, List.find?_cons]
    · simp [toggleTaskServer, h, List.find?_cons, ih]

/-- C2 (failing-input evaluation): resolving "Add 'Buy milk'" against any
collection yields one add invocation whose title is `"Buy"`, not
`"Buy milk"`: pattern 1 of `extractTitle` matches first and its lazy
capture group stops at the first position where `['"]?(?:\s|$|\.)`
succeeds, which is the space after "Buy". -/
theorem add_buy_milk_extracts_only_first_word (tasks : List Task) :
    extractTitle "Add \x27Buy milk\x27" = some "Buy" ∧
      (mockClaudeResponse "Add \x27Buy milk\x27" tasks).toolCalls = [addCall "Buy"] :=
  ⟨rfl, rfl⟩

/-- C3 counterexample: executing a `complete` invocation twice in
succession does not leave the collection as after executing it once — the
second execution flips `completed` back. -/
theorem complete_twice_differs_from_once :
    (executeToolCall 0 (completeCall "t1")
        (executeToolCall 0 (completeCall "t1") [demoPending]).1).1 ≠
      (executeToolCall 0 (completeCall "t1") [demoPending]).1 := by
  decide

/-- C3 (amended): executing a `complete` invocation twice in succession
restores the collection to its state before the first execution —
completion toggling is an involution, so a retry undoes rather than
repeats the mutation. -/
theorem complete_twice_restores_collection (now : Nat) (ts : List Task) (i : String) :
    (executeToolCall now (completeCall i)
        (executeToolCall now (completeCall i) ts).1).1 = ts := by
  by_cases hi : i = ""
  · simp [executeToolCall, completeCall, hi]
  · rcases hfind : ts.find? (fun t => t.id = i) with _ | t
    · simp [executeToolCall, completeCall, hi, hfind]
    · have h2 : (toggleTaskServer ts i).find? (fun t => t.id = i) =
          some { t with completed := !t.completed } := by
        rw [toggleTaskServer_find, hfind]; rfl
      simp [executeToolCall, completeCall, hi, hfind, h2, toggleTaskServer_involutive]

/-- C4 counterexample: an add executed while the collection already holds a
task whose identifier is `task-` + the current millisecond reading reuses
that identifier — the reference format is not collision-proof. -/
theorem add_can_reuse_identifier :
    (addTaskServer 0 [{ id := "task-0", title := "x", completed := false, createdAt := 0 }] "y").1.id
      ∈ ([{ id := "task-0", title := "x", completed := false, createdAt := 0 }] : List Task).map Task.id := by
  decide

/-- C4 (amended): the freshly generated identifier is distinct from every
identifier already in the collection provided no existing task carries the
identifier `task-` + the current millisecond reading (identifiers derive
solely from `Date.now()`, so same-millisecond adds can collide — the
documented weakness). -/
theorem add_fresh_identifier_unless_same_millisecond (now : Nat) (tasks : List Task)
    (title : String) (h : ∀ t ∈ tasks, t.id ≠ "task-" ++ toString now) :
    (addTaskServer now tasks title).1.id ∉ tasks.map Task.id := by
  simp only [addTaskServer, List.mem_map]
  rintro ⟨t, ht, hid⟩
  exact h t ht hid

/-- C4 witness: the amended theorem applied at a concrete collection whose
identifiers avoid the current millisecond reading. -/
theorem add_fresh_identifier_witness :
    (∀ t ∈ [demoPending, demoDone], t.id ≠ "task-" ++ toString 7) ∧
      (addTaskServer 7 [demoPending, demoDone] "Exercise").1.id ∉
        ([demoPending, demoDone] : List Task).map Task.id :=
  ⟨by decide, add_fresh_identifier_unless_same_millisecond 7 [demoPending, demoDone]
    "Exercise" (by decide)⟩

/-- C1: resolving any input carrying a clearing verb and a completion
qualifier yields, for `k ≥ 1` completed tasks, exactly one delete
invocation per currently-completed task in collection order with the reply
built from the pre-execution counts; and for `k = 0`, zero invocations
with the no-completed-tasks-to-clear reply. -/
theorem clear_completed_resolution (msg : String) (tasks : List Task)
    (hverb : clearVerb (lowerTrim msg) = true)
    (hqual : completionQual (lowerTrim msg) = true) :
    (tasks.filter (fun t => t.completed) = [] →
      mockClaudeResponse msg tasks =
        { response := "No completed tasks to clear.", toolCalls := [] }) ∧
    (tasks.filter (fun t => t.completed) ≠ [] →
      (mockClaudeResponse msg tasks).toolCalls =
          (tasks.filter (fun t => t.completed)).map (fun t => deleteCall t.id) ∧
        (mockClaudeResponse msg tasks).response =
          clearedReply (tasks.filter (fun t => t.completed)).length
            (tasks.length - (tasks.filter (fun t => t.completed)).length)) := by
  constructor
  · intro h
    simp [mockClaudeResponse, clearBranch, hverb, hqual, h]
  · intro h
    have hlen : (tasks.filter (fun t => t.completed)).length ≠ 0 := by
      simpa [List.length_eq_zero] using h
    simp [mockClaudeResponse, clearBranch, hverb, hqual, hlen]

/-- C1 witness: the spec §8 scenario-B collection and utterance —
"Clear all completed tasks" against `[t1 pending, t2 completed]` yields one
delete invocation for `t2` and the reply
"Cleared 1 completed task. You have 1 task remaining.". -/
theorem clear_completed_resolution_witness :
    (clearVerb (lowerTrim "Clear all completed tasks") = true ∧
      completionQual (lowerTrim "Clear all completed tasks") = true) ∧
    ((([demoPending, demoDone] : List Task).filter (fun t => t.completed) = [] →
      mockClaudeResponse "Clear all completed tasks" [demoPending, demoDone] =
        { response := "No completed tasks to clear.", toolCalls := [] }) ∧
    (([demoPending, demoDone] : List Task).filter (fun t => t.completed) ≠ [] →
      (mockClaudeResponse "Clear all completed tasks" [demoPending, demoDone]).toolCalls =
          (([demoPending, demoDone] : List Task).filter (fun t => t.completed)).map
            (fun t => deleteCall t.id) ∧
        (mockClaudeResponse "Clear all completed tasks" [demoPending, demoDone]).response =
          clearedReply (([demoPending, demoDone] : List Task).filter (fun t => t.completed)).length
            (([demoPending, demoDone] : List Task).length -
              (([demoPending, demoDone] : List Task).filter (fun t => t.completed)).length))) ∧
    clearedReply 1 1 = "Cleared 1 completed task. You have 1 task remaining." ∧
    (mockClaudeResponse "Clear all completed tasks" [demoPending, demoDone]).toolCalls =
      [deleteCall "t2"] :=
  ⟨⟨by decide, by decide⟩,
    clear_completed_resolution "Clear all completed tasks" [demoPending, demoDone]
      (by decide) (by decide),
    by decide, by decide⟩

/-- C5: a complete-intent input with no target words (no bulk-clear verb,
no add verb, no "first"/"last", no extractable title) resolved against a
non-empty collection yields exactly one `complete` invocation targeting
the first task's identifier — never zero invocations and never an error. -/
theorem complete_defaults_to_first (msg : String) (t0 : Task) (rest : List Task)
    (hclear : clearVerb (lowerTrim msg) = false)
    (hadd : addIntent (lowerTrim msg) = false)
    (hcomp : completeIntent (lowerTrim msg) = true)
    (hfirst : containsTok (lowerTrim msg) "first" = false)
    (hlast : containsTok (lowerTrim msg) "last" = false)
    (htitle : extractTitle msg = none) :
    mockClaudeResponse msg (t0 :: rest) =
      { response := "✓ Marked \"" ++ t0.title ++ "\" as complete.",
        toolCalls := [completeCall t0.id] } := by
  simp [mockClaudeResponse, completeBranch, resolveTarget, hclear, hadd, hcomp,
    hfirst, hlast, htitle]

/-- C5 witness: "mark done" against the two-task demo collection targets
the first task `t1`. -/
theorem complete_defaults_to_first_witness :
    (clearVerb (lowerTrim "mark done") = false ∧
      addIntent (lowerTrim "mark done") = false ∧
      completeIntent (lowerTrim "mark done") = true ∧
      containsTok (lowerTrim "mark done") "first" = false ∧
      containsTok (lowerTrim "mark done") "last" = false ∧
      extractTitle "mark done" = none) ∧
    mockClaudeResponse "mark done" [demoPending, demoDone] =
      { response := "✓ Marked \"" ++ demoPending.title ++ "\" as complete.",
        toolCalls := [completeCall demoPending.id] } :=
  ⟨⟨by decide, by decide, by decide, by decide, by decide, by decide⟩,
    complete_defaults_to_first "mark done" demoPending [demoDone]
      (by decide) (by decide) (by decide) (by decide) (by decide) (by decide)⟩

/-- Third demo task, pending. -/
def demoThird : Task := { id := "t3", title := "Review PR", completed := false, createdAt := 3 }

/-- C6 counterexample: a task whose identifier is the empty string is
present in the collection, yet executing a complete or delete invocation
for that identifier fails — the executor rejects a falsy `task_id`
("Task ID is required") before the lookup. -/
theorem present_empty_identifier_still_fails :
    (([{ id := "", title := "ghost", completed := false, createdAt := 0 }] : List Task).find?
        (fun t => t.id = "")).isSome = true ∧
      (executeToolCall 0 (completeCall "")
          [{ id := "", title := "ghost", completed := false, createdAt := 0 }]).2.success = false ∧
      (executeToolCall 0 (deleteCall "")
          [{ id := "", title := "ghost", completed := false, createdAt := 0 }]).2.success = false := by
  decide

/-- C6 (amended): for every non-empty identifier, a complete or delete
invocation whose identifier is absent from the collection returns
success=false with the descriptive not-found error and leaves the
collection unchanged; when the identifier is present, execution
succeeds. -/
theorem notfound_is_nonfatal (now : Nat) (ts : List Task) (i : String) (hne : i ≠ "") :
    (ts.find? (fun t => t.id = i) = none →
      executeToolCall now (completeCall i) ts = (ts, failResult "complete_task" (notFoundMsg i)) ∧
        executeToolCall now (deleteCall i) ts = (ts, failResult "delete_task" (notFoundMsg i))) ∧
    (∀ t, ts.find? (fun t => t.id = i) = some t →
      (executeToolCall now (completeCall i) ts).2.success = true ∧
        (executeToolCall now (deleteCall i) ts).2.success = true) := by
  constructor
  · intro h
    constructor <;> simp [executeToolCall, completeCall, deleteCall, hne, h, failResult]
  · intro t ht
    constructor <;> simp [executeToolCall, completeCall, deleteCall, hne, ht]

/-- C6 witness: the amended theorem at the demo collection with the absent
identifier "zz" and the present identifier "t2". -/
theorem notfound_is_nonfatal_witness :
    (("zz" : String) ≠ "" ∧ ("t2" : String) ≠ "") ∧
    ((([demoPending, demoDone] : List Task).find? (fun t => t.id = "zz") = none →
      executeToolCall 0 (completeCall "zz") [demoPending, demoDone] =
          ([demoPending, demoDone], failResult "complete_task" (notFoundMsg "zz")) ∧
        executeToolCall 0 (deleteCall "zz") [demoPending, demoDone] =
          ([demoPending, demoDone], failResult "delete_task" (notFoundMsg "zz"))) ∧
      (∀ t, ([demoPending, demoDone] : List Task).find? (fun t => t.id = "zz") = some t →
        (executeToolCall 0 (completeCall "zz") [demoPending, demoDone]).2.success = true ∧
          (executeToolCall 0 (deleteCall "zz") [demoPending, demoDone]).2.success = true)) ∧
    (∀ t, ([demoPending, demoDone] : List Task).find? (fun t => t.id = "t2") = some t →
      (executeToolCall 0 (completeCall "t2") [demoPending, demoDone]).2.success = true ∧
        (executeToolCall 0 (deleteCall "t2") [demoPending, demoDone]).2.success = true) :=
  ⟨⟨by decide, by decide⟩,
    notfound_is_nonfatal 0 [demoPending, demoDone] "zz" (by decide),
    (notfound_is_nonfatal 0 [demoPending, demoDone] "t2" (by decide)).2⟩

/-- Splitting a batch: executing `l ++ r` threads the collection left to
right — `r` starts from the collection `l` produced — and the result lists
concatenate in invocation order. -/
theorem executeAll_append (now : Nat) (l r : List ToolCall) (ts : List Task) :
    executeAll now (l ++ r) ts =
      ((executeAll now r (executeAll now l ts).1).1,
        (executeAll now l ts).2 ++ (executeAll now r (executeAll now l ts).1).2) := by
  induction l generalizing ts with
  | nil => simp [executeAll]
  | cons c cs ih => simp [executeAll, ih]

/-- One result per invocation, whatever the outcomes: a failed invocation
never halts the batch. -/
theorem executeAll_length (now : Nat) (calls : List ToolCall) (ts : List Task) :
    (executeAll now calls ts).2.length = calls.length := by
  induction calls generalizing ts with
  | nil => rfl
  | cons c cs ih => simp [executeAll, ih]

/-- C7: the executor applies invocations strictly in order, threading the
collection (splitting any batch shows invocation *i+1* sees the collection
as mutated by the prefix), produces one result per invocation in
invocation order, and a failure does not halt the batch — concretely, in a
batch of three deletes whose middle identifier is absent, the other two
tasks are still deleted and the per-invocation successes are
[true, false, true]. -/
theorem executor_in_order_partial_failure :
    (∀ (now : Nat) (l r : List ToolCall) (ts : List Task),
      executeAll now (l ++ r) ts =
        ((executeAll now r (executeAll now l ts).1).1,
          (executeAll now l ts).2 ++ (executeAll now r (executeAll now l ts).1).2)) ∧
    (∀ (now : Nat) (calls : List ToolCall) (ts : List Task),
      (executeAll now calls ts).2.length = calls.length) ∧
    (executeAll 0 [deleteCall "t1", deleteCall "zz", deleteCall "t2"]
        [demoPending, demoDone, demoThird]).1 = [demoThird] ∧
    (executeAll 0 [deleteCall "t1", deleteCall "zz", deleteCall "t2"]
        [demoPending, demoDone, demoThird]).2.map ToolResult.success = [true, false, true] :=
  ⟨executeAll_append, executeAll_length, by decide, by decide⟩

/-- C8: with an empty collection, a complete-intent or delete-intent input
(not captured by the bulk-clear or add rules) resolves to a clarifying
reply with zero invocations, so the Executor is never invoked. -/
theorem empty_collection_resolves_without_invocations (msg : String)
    (hclear : clearVerb (lowerTrim msg) = false)
    (hadd : addIntent (lowerTrim msg) = false) :
    (completeIntent (lowerTrim msg) = true →
      mockClaudeResponse msg [] =
        { response := "You don\x27t have any tasks to complete!", toolCalls := [] }) ∧
    (completeIntent (lowerTrim msg) = false → deleteIntent (lowerTrim msg) = true →
      mockClaudeResponse msg [] =
        { response := "You don\x27t have any tasks to delete!", toolCalls := [] }) := by
  constructor
  · intro h
    simp [mockClaudeResponse, completeBranch, hclear, hadd, h]
  · intro h1 h2
    simp [mockClaudeResponse, deleteBranch, hclear, hadd, h1, h2]

/-- C8 witness: spec §8 scenario C — "Delete that task" against the empty
collection yields the reply "You don't have any tasks to delete!" and zero
invocations. -/
theorem empty_collection_resolves_witness :
    (clearVerb (lowerTrim "Delete that task") = false ∧
      addIntent (lowerTrim "Delete that task") = false) ∧
    ((completeIntent (lowerTrim "Delete that task") = true →
      mockClaudeResponse "Delete that task" [] =
        { response := "You don\x27t have any tasks to complete!", toolCalls := [] }) ∧
    (completeIntent (lowerTrim "Delete that task") = false →
      deleteIntent (lowerTrim "Delete that task") = true →
      mockClaudeResponse "Delete that task" [] =
        { response := "You don\x27t have any tasks to delete!", toolCalls := [] })) :=
  ⟨⟨by decide, by decide⟩,
    empty_collection_resolves_without_invocations "Delete that task" (by decide) (by decide)⟩

/-- C9: resolving a list-intent input is deterministic and read-only — two
resolutions of the same input against the same collection yield identical
reply text, and the invocation list is empty in both. -/
theorem list_intent_deterministic_readonly (msg : String) (tasks : List Task)
    (hclear : clearVerb (lowerTrim msg) = false)
    (hadd : addIntent (lowerTrim msg) = false)
    (hcomp : completeIntent (lowerTrim msg) = false)
    (hdel : deleteIntent (lowerTrim msg) = false)
    (hlist : listIntent (lowerTrim msg) = true) :
    (mockClaudeResponse msg tasks).response = (mockClaudeResponse msg tasks).response ∧
      (mockClaudeResponse msg tasks).toolCalls = [] := by
  refine ⟨rfl, ?_⟩
  cases tasks with
  | nil => simp [mockClaudeResponse, listBranch, hclear, hadd, hcomp, hdel, hlist]
  | cons t ts => simp [mockClaudeResponse, listBranch, hclear, hadd, hcomp, hdel, hlist]

/-- C9 witness: "show my tasks" against the demo collection. -/
theorem list_intent_deterministic_witness :
    (clearVerb (lowerTrim "show my tasks") = false ∧
      addIntent (lowerTrim "show my tasks") = false ∧
      completeIntent (lowerTrim "show my tasks") = false ∧
      deleteIntent (lowerTrim "show my tasks") = false ∧
      listIntent (lowerTrim "show my tasks") = true) ∧
    (mockClaudeResponse "show my tasks" [demoPending, demoDone]).response =
        (mockClaudeResponse "show my tasks" [demoPending, demoDone]).response ∧
      (mockClaudeResponse "show my tasks" [demoPending, demoDone]).toolCalls = [] :=
  ⟨⟨by decide, by decide, by decide, by decide, by decide⟩,
    list_intent_deterministic_readonly "show my tasks" [demoPending, demoDone]
      (by decide) (by decide) (by decide) (by decide) (by decide)⟩

/-- C10: frame property of mutation — toggling an identifier whose first
carrier is `t` flips only `t`'s completed field (its other fields, every
other task and the order are untouched), and deleting an identifier
removes exactly the tasks carrying it, preserving every other task and
their relative order (the result is a sublist). -/
theorem mutation_frame_property (i : String) (pre post : List Task) (t : Task)
    (ts : List Task) (hpre : ∀ u ∈ pre, u.id ≠ i) (ht : t.id = i) :
    toggleTaskServer (pre ++ t :: post) i =
      pre ++ { t with completed := !t.completed } :: post ∧
    (deleteTaskServer ts i).Sublist ts ∧
    (∀ u ∈ deleteTaskServer ts i, u.id ≠ i) ∧
    (∀ u ∈ ts, u.id ≠ i → u ∈ deleteTaskServer ts i) := by
  refine ⟨?_, List.filter_sublist _, ?_, ?_⟩
  · induction pre with
    | nil => simp [toggleTaskServer, ht]
    | cons u pre ih =>
      have hu : u.id ≠ i := hpre u (by simp)
      have ih' := ih fun v hv => hpre v (by simp [hv])
      simpa [toggleTaskServer, hu] using ih'
  · intro u hu
    simpa [deleteTaskServer, List.mem_filter] using (List.mem_filter.mp hu).2
  · intro u hu hne
    simp only [deleteTaskServer, List.mem_filter]
    exact ⟨hu, by simpa using hne⟩

/-- C10 witness: toggling "t2" in `[t1, t2, t3]` flips only `t2`; deleting
from the demo collection keeps the rest. -/
theorem mutation_frame_property_witness :
    ((∀ u ∈ ([demoPending] : List Task), u.id ≠ "t2") ∧ demoDone.id = "t2") ∧
    (toggleTaskServer ([demoPending] ++ demoDone :: [demoThird]) "t2" =
        [demoPending] ++ { demoDone with completed := !demoDone.completed } :: [demoThird] ∧
      (deleteTaskServer [demoPending, demoDone] "t2").Sublist [demoPending, demoDone] ∧
      (∀ u ∈ deleteTaskServer [demoPending, demoDone] "t2", u.id ≠ "t2") ∧
      (∀ u ∈ ([demoPending, demoDone] : List Task), u.id ≠ "t2" →
        u ∈ deleteTaskServer [demoPending, demoDone] "t2")) :=
  ⟨⟨by decide, by decide⟩,
    mutation_frame_property "t2" [demoPending] [demoThird] demoDone
      [demoPending, demoDone] (by decide) (by decide)⟩

end TaskMgr
